import Mathlib

/-!
Shallow embedding of `password_generator.py`: an interactive terminal
application that, after a login gate, lets the user configure a password
length and four character-class flags, generate random passwords, record
them in an in-memory history, and export them through a collaborator.

Pure computations (pool construction, sampling, length validation, flag
toggling) are embedded as Lean functions.  The interactive control flow of
`main` and its screen loops is embedded as a deterministic step machine:
every `input()` call site of the Python program becomes a mode of the
machine, and one step consumes one line of input.  Randomness
(`random.choices`) and the login collaborator's answer are supplied as part
of each input event, since they are external to the program.  Calls to the
two collaborators are emitted as events; display-only output is omitted
except for the outcome messages the specification names.
-/

namespace PasswordGenerator

/-- The whitespace characters Python's `str.strip()` removes (restricted to
the ASCII ones, the only ones a terminal line contains here). -/
def is_space (c : Char) : Bool :=
  c = ' ' || c = '\t' || c = '\n' || c = '\r'

/-- Python `str.strip()`: drop leading and trailing whitespace. -/
def py_strip (s : String) : String :=
  String.mk ((((s.toList.dropWhile is_space).reverse.dropWhile is_space).reverse))

/-- Python `str.lower()`: lowercase every character. -/
def py_lower (s : String) : String :=
  String.mk (s.toList.map Char.toLower)

/-- `string.ascii_lowercase`: the 26 characters a-z. -/
def ascii_lowercase : List Char := (List.range 26).map fun i => Char.ofNat (97 + i)

/-- `string.ascii_uppercase`: the 26 characters A-Z. -/
def ascii_uppercase : List Char := (List.range 26).map fun i => Char.ofNat (65 + i)

/-- `string.digits`: the 10 characters 0-9. -/
def string_digits : List Char := (List.range 10).map fun i => Char.ofNat (48 + i)

/-- The fixed 30-character symbol set literal of `generate_password`
(line 369 of the source). -/
def symbol_chars : List Char :=
  ['!', '@', '#', '$', '%', '^', '&', '*', '(', ')', '_', '+', '-', '=',
   '[', ']', '\x7b', '\x7d', '|', ';', ':', '\u0027', ',', '.', '<', '>', '?', '/',
   '\u0060', '~']

/-- The character pool built at the start of `generate_password`
(lines 361-369): start empty and extend with each enabled class, in the
fixed order lowercase, uppercase, digits, symbols. -/
def build_pool (use_lower use_upper use_digit use_symbol : Bool) : List Char :=
  (if use_lower then ascii_lowercase else []) ++
  (if use_upper then ascii_uppercase else []) ++
  (if use_digit then string_digits else []) ++
  (if use_symbol then symbol_chars else [])

/-- `generate_password` (lines 358-373).  `random.choices(pool, k=length)`
draws `length` characters from `pool` with replacement; it is modelled by
the oracle `rand : Nat → Nat`, draw `i` picking index `rand i % pool.length`.
When the pool is empty and `length ≥ 1`, `random.choices` raises
`IndexError` (it indexes `population[0]`), so the embedding returns `none`;
with `length = 0` no indexing happens and the empty string is returned.
The password is the resulting character list (the Python code joins it into
a string). -/
def generate_password (length : Nat) (use_lower use_upper use_digit use_symbol : Bool)
    (rand : Nat → Nat) : Option (List Char) :=
  let pool := build_pool use_lower use_upper use_digit use_symbol
  if pool.length = 0 ∧ 0 < length then none
  else some ((List.range length).map fun i => pool.getD (rand i % pool.length) 'a')

/-- `int(raw)` for a string of decimal digits (the only strings the caller
parses): fold the digits left to right. -/
def parse_digits (s : String) : Nat :=
  s.toList.foldl (fun a c => a * 10 + (c.toNat - 48)) 0

/-- `do_set_length` (lines 242-296) as a pure function of the current
length and the two lines the user may type: `raw` at the `Enter length:`
prompt and `confirm` at the weak-length confirmation prompt (`confirm` is
read only when `5 ≤ n < 10`).  The Python code strips both inputs and
lowercases the confirmation. -/
def do_set_length (current_length : Option Nat) (raw confirm : String) : Option Nat :=
  let min_length := 5
  let max_length := 100
  let weak_threshold := 10
  let r := py_strip raw
  if r = "" then current_length
  else if ¬ r.toList.all (fun c => c ∈ string_digits) then current_length
  else
    let n := parse_digits r
    if n < min_length ∨ max_length < n then current_length
    else if n < weak_threshold ∧ py_lower (py_strip confirm) ≠ "y" then current_length
    else some n

/-- One iteration of the `do_character_types` loop body (lines 342-351)
restricted to the non-returning choices: choices "1"-"4" flip one flag,
any other (non-"5") choice leaves all four unchanged.  Choice "5" (save
and return) is handled by the caller. -/
def do_character_types_step (use_lower use_upper use_digit use_symbol : Bool)
    (choice : String) : Bool × Bool × Bool × Bool :=
  if choice = "1" then (!use_lower, use_upper, use_digit, use_symbol)
  else if choice = "2" then (use_lower, !use_upper, use_digit, use_symbol)
  else if choice = "3" then (use_lower, use_upper, !use_digit, use_symbol)
  else if choice = "4" then (use_lower, use_upper, use_digit, !use_symbol)
  else (use_lower, use_upper, use_digit, use_symbol)

/-- Apply `do_character_types_step` to a packaged tuple of the four flags. -/
def toggle_types (t : Bool × Bool × Bool × Bool) (choice : String) :
    Bool × Bool × Bool × Bool :=
  do_character_types_step t.1 t.2.1 t.2.2.1 t.2.2.2 choice

/-- One saved-password record, the dictionary built by
`save_generated_password` (lines 82-89); field names follow its keys. -/
structure PasswordRecord where
  password : List Char
  length : Nat
  lowercase : Bool
  uppercase : Bool
  numbers : Bool
  symbols : Bool
deriving DecidableEq

/-- `save_generated_password` (lines 80-90): append one record built from
the arguments to the end of the list. -/
def save_generated_password (saved_passwords : List PasswordRecord)
    (password : List Char) (length : Nat)
    (use_lower use_upper use_digit use_symbol : Bool) : List PasswordRecord :=
  saved_passwords ++ [⟨password, length, use_lower, use_upper, use_digit, use_symbol⟩]

/-- The modes of the session machine: one mode per `input()` call site of
the Python program, each awaiting exactly one line of input.
`terminated c` models `raise SystemExit(c)` in `exit_program` (a normal
process exit with status `c`); `crashed` models an unhandled exception
escaping `main` (an abnormal, non-zero termination).  Both are absorbing. -/
inductive Mode where
  | welcome
  | loginUser
  | loginPass (username : String)
  | mainMenu
  | settingsMenu
  | setLengthEntry
  | setLengthConfirm (n : Nat)
  | pauseToSettings
  | typesMenu
  | generateScreen
  | helpMenu
  | pauseToHelp
  | pauseToMenu
  | exportFilename
  | terminated (code : Nat)
  | crashed
deriving DecidableEq

/-- The configuration `main` keeps in its local variables (lines 520-525). -/
structure Config where
  length : Option Nat
  types_set : Bool
  use_lower : Bool
  use_upper : Bool
  use_digit : Bool
  use_symbol : Bool
deriving DecidableEq

/-- The whole session state: current mode, configuration, and the
`saved_passwords` history list. -/
structure SessionState where
  mode : Mode
  config : Config
  saved_passwords : List PasswordRecord
deriving DecidableEq

/-- Observable events of one step: the outcome messages the specification
names, and the two collaborator calls (`attempt_login` and
`export_saved_passwords`, with the arguments the Python code passes). -/
inductive Event where
  | printMsg (msg : String)
  | loginCall (username password : String)
  | exportCall (filename : String) (data : List PasswordRecord)
deriving DecidableEq

/-- One input event: the line the user types, the sampling oracle consumed
by `random.choices` if this step generates a password, and the status
string `attempt_login` returns if this step calls the login collaborator
(transport failures are already folded into `"service_error"` inside
`attempt_login`, so a plain string is the whole answer). -/
structure Inp where
  line : String
  rand : Nat → Nat
  loginStatus : String

/-- Generate one password with the current configuration, record it in the
history, and land on the generate screen — the top of the
`run_generate_screen` loop (lines 384-392).  An empty pool makes
`random.choices` raise `IndexError`, which no caller catches: the process
crashes. -/
def generate_and_record (s : SessionState) (n : Nat) (rand : Nat → Nat) :
    SessionState × List Event :=
  match generate_password n s.config.use_lower s.config.use_upper
      s.config.use_digit s.config.use_symbol rand with
  | none => ({ s with mode := Mode.crashed }, [])
  | some pwd =>
      ({ s with
          mode := Mode.generateScreen
          saved_passwords := save_generated_password s.saved_passwords pwd n
            s.config.use_lower s.config.use_upper s.config.use_digit
            s.config.use_symbol }, [])

/-- One step of the session machine: from the current mode, consume one
input event and move to the next `input()` call site, mirroring the
control flow of `main` and the screen functions it calls.  All prompts
strip their input (`.strip()`), modelled by `py_strip`. -/
def step (s : SessionState) (i : Inp) : SessionState × List Event :=
  match s.mode with
  | Mode.welcome =>
      -- show_welcome (line 166) waits for Enter, then main runs the login screen.
      ({ s with mode := Mode.loginUser }, [])
  | Mode.loginUser =>
      -- run_login_screen (lines 50-54): blank username quits; main then
      -- calls exit_program() (lines 510-512).
      if py_strip i.line = "" then ({ s with mode := Mode.terminated 0 }, [])
      else ({ s with mode := Mode.loginPass (py_strip i.line) }, [])
  | Mode.loginPass username =>
      -- lines 56-72: read the password, call attempt_login; "ok" grants the
      -- session, every other status re-prompts for the username.
      if i.loginStatus = "ok" then
        ({ s with mode := Mode.mainMenu }, [Event.loginCall username (py_strip i.line)])
      else
        ({ s with mode := Mode.loginUser }, [Event.loginCall username (py_strip i.line)])
  | Mode.mainMenu =>
      -- main's dispatch on run_main_menu's choice (lines 529-554).
      if py_strip i.line = "1" then
        match s.config.length with
        | none =>
            ({ s with mode := Mode.pauseToMenu },
             [Event.printMsg "Set length and character types first in Edit password settings."])
        | some n =>
            if s.config.types_set then generate_and_record s n i.rand
            else
              ({ s with mode := Mode.pauseToMenu },
               [Event.printMsg "Set length and character types first in Edit password settings."])
      else if py_strip i.line = "2" then ({ s with mode := Mode.settingsMenu }, [])
      else if py_strip i.line = "3" then ({ s with mode := Mode.helpMenu }, [])
      else if py_strip i.line = "4" then
        -- run_export_screen (lines 122-155): an empty history short-circuits
        -- before any collaborator contact.
        if s.saved_passwords.length = 0 then
          ({ s with mode := Mode.pauseToMenu },
           [Event.printMsg "There are no saved passwords to export yet."])
        else ({ s with mode := Mode.exportFilename }, [])
      else if py_strip i.line = "5" then ({ s with mode := Mode.terminated 0 }, [])
      else (s, [])
  | Mode.settingsMenu =>
      -- run_settings dispatch (lines 225-235).
      if py_strip i.line = "1" then ({ s with mode := Mode.setLengthEntry }, [])
      else if py_strip i.line = "2" then ({ s with mode := Mode.typesMenu }, [])
      else if py_strip i.line = "3" then ({ s with mode := Mode.mainMenu }, [])
      else if py_strip i.line = "4" then ({ s with mode := Mode.terminated 0 }, [])
      else (s, [])
  | Mode.setLengthEntry =>
      -- do_set_length (lines 257-296) up to its first input; every rejection
      -- waits at a "Press Enter to return to settings" prompt.
      if py_strip i.line = "" then ({ s with mode := Mode.pauseToSettings }, [])
      else if ¬ (py_strip i.line).toList.all (fun c => c ∈ string_digits) then
        ({ s with mode := Mode.pauseToSettings }, [])
      else
        let n := parse_digits (py_strip i.line)
        if n < 5 ∨ 100 < n then ({ s with mode := Mode.pauseToSettings }, [])
        else if n < 10 then ({ s with mode := Mode.setLengthConfirm n }, [])
        else
          ({ s with
              mode := Mode.settingsMenu
              config := { s.config with length := some n } }, [])
  | Mode.setLengthConfirm n =>
      -- lines 287-296: the weak-length confirmation, stripped and lowercased.
      if py_lower (py_strip i.line) = "y" then
        ({ s with
            mode := Mode.settingsMenu
            config := { s.config with length := some n } }, [])
      else ({ s with mode := Mode.pauseToSettings }, [])
  | Mode.pauseToSettings =>
      -- "Press Enter to return to settings..." then back to run_settings' loop.
      ({ s with mode := Mode.settingsMenu }, [])
  | Mode.typesMenu =>
      -- do_character_types (lines 338-351); "5" saves, returns the flags to
      -- run_settings, which sets types_set = True (line 231).  The Python
      -- loop edits local copies of the flags, but they are written back
      -- unconditionally at the only exit, so editing in place is equivalent.
      if py_strip i.line = "5" then
        ({ s with
            mode := Mode.settingsMenu
            config := { s.config with types_set := true } }, [])
      else
        let t := do_character_types_step s.config.use_lower s.config.use_upper
          s.config.use_digit s.config.use_symbol (py_strip i.line)
        ({ s with
            config := { s.config with
              use_lower := t.1
              use_upper := t.2.1
              use_digit := t.2.2.1
              use_symbol := t.2.2.2 } }, [])
  | Mode.generateScreen =>
      -- run_generate_screen's choice (lines 397-407): "2" returns to the
      -- menu, "3" exits, and any other input — "1" included — falls through
      -- to the next loop iteration, which generates and records again.
      if py_strip i.line = "2" then ({ s with mode := Mode.mainMenu }, [])
      else if py_strip i.line = "3" then ({ s with mode := Mode.terminated 0 }, [])
      else
        match s.config.length with
        | some n => generate_and_record s n i.rand
        | none => ({ s with mode := Mode.crashed }, [])
  | Mode.helpMenu =>
      -- run_help_menu (lines 435-448); each help page waits for Enter.
      if py_strip i.line = "1" then ({ s with mode := Mode.pauseToHelp }, [])
      else if py_strip i.line = "2" then ({ s with mode := Mode.pauseToHelp }, [])
      else if py_strip i.line = "3" then ({ s with mode := Mode.pauseToHelp }, [])
      else if py_strip i.line = "4" then ({ s with mode := Mode.mainMenu }, [])
      else if py_strip i.line = "5" then ({ s with mode := Mode.terminated 0 }, [])
      else (s, [])
  | Mode.pauseToHelp => ({ s with mode := Mode.helpMenu }, [])
  | Mode.pauseToMenu =>
      -- "Press Enter to return to menu" prompts, back to main's loop.
      ({ s with mode := Mode.mainMenu }, [])
  | Mode.exportFilename =>
      -- lines 134-155: blank filename defaults to "passwords.csv"; the
      -- collaborator is called, and every response branch ends at a
      -- "Press Enter to return to menu" prompt (only the displayed text
      -- differs, so the response is not part of the state).
      ({ s with mode := Mode.pauseToMenu },
       [Event.exportCall (if py_strip i.line = "" then "passwords.csv" else py_strip i.line)
          s.saved_passwords])
  | Mode.terminated _ => (s, [])
  | Mode.crashed => (s, [])

/-- The configuration `main` starts from (lines 520-525). -/
def initConfig : Config :=
  { length := none
    types_set := false
    use_lower := true
    use_upper := true
    use_digit := true
    use_symbol := false }

/-- The state at program start: the welcome screen, the initial
configuration, and an empty history (line 515). -/
def initState : SessionState :=
  { mode := Mode.welcome, config := initConfig, saved_passwords := [] }

/-- Run the machine over a list of input events. -/
def run (s : SessionState) : List Inp → SessionState
  | [] => s
  | i :: rest => run (step s i).1 rest

/-- Run the machine over a list of input events, collecting all events. -/
def runEvents (s : SessionState) : List Inp → List Event
  | [] => []
  | i :: rest => (step s i).2 ++ runEvents (step s i).1 rest

/-- An input event with a fixed sampling oracle and no login answer. -/
def inp (l : String) : Inp := { line := l, rand := fun _ => 0, loginStatus := "" }

/-- An input event carrying a login collaborator answer. -/
def inpLogin (l st : String) : Inp := { line := l, rand := fun _ => 0, loginStatus := st }

/-- An interaction trace that logs in, sets length 10, toggles the three
enabled character classes off (symbols are off by default), saves, returns
to the main menu — leaving every class flag false with `types_set` true. -/
def allOffTrace : List Inp :=
  [inp "", inp "bob", inpLogin "secret" "ok", inp "2", inp "1", inp "10",
   inp "2", inp "1", inp "2", inp "3", inp "5", inp "3"]

/-- The pool is nonempty whenever at least one class flag is enabled. -/
lemma build_pool_length_pos (l u d s : Bool) (h : (l || u || d || s) = true) :
    0 < (build_pool l u d s).length := by
  revert h
  cases l <;> cases u <;> cases d <;> cases s <;> decide

/-- C2: for every length in [1,100] and flag assignment with at least one
flag enabled, `generate_password` returns a password of exactly `length`
characters, each drawn from the pool built in the fixed order lowercase,
uppercase, digits, symbols — for every sampling oracle. -/
theorem c2_generate_password_length_and_pool (len : Nat) (l u d s : Bool)
    (rand : Nat → Nat) (h1 : 1 ≤ len) (h2 : len ≤ 100)
    (h3 : l = true ∨ u = true ∨ d = true ∨ s = true) :
    ∃ pwd, generate_password len l u d s rand = some pwd ∧
      pwd.length = len ∧ ∀ c ∈ pwd, c ∈ build_pool l u d s := by
  have hpos : 0 < (build_pool l u d s).length := by
    apply build_pool_length_pos
    rcases h3 with h | h | h | h <;> simp [h]
  have hne : ¬ ((build_pool l u d s).length = 0 ∧ 0 < len) := by omega
  refine ⟨(List.range len).map
      (fun i => (build_pool l u d s).getD (rand i % (build_pool l u d s).length) 'a'),
    ?_, ?_, ?_⟩
  · simp only [generate_password, if_neg hne]
  · simp
  · intro c hc
    obtain ⟨i, _, rfl⟩ := List.mem_map.mp hc
    have hlt : rand i % (build_pool l u d s).length < (build_pool l u d s).length :=
      Nat.mod_lt _ hpos
    rw [List.getD_eq_getElem _ _ hlt]
    exact List.getElem_mem hlt

/-- Witness for C2 at a concrete input. -/
theorem c2_witness :
    ∃ pwd, generate_password 5 true false false false (fun _ => 0) = some pwd ∧
      pwd.length = 5 ∧ ∀ c ∈ pwd, c ∈ build_pool true false false false :=
  c2_generate_password_length_and_pool 5 true false false false (fun _ => 0)
    (by decide) (by decide) (Or.inl rfl)

/-- C10: with all four character-class flags false, the pool is empty and
`generate_password` fails (in Python: `random.choices` raises `IndexError`)
for every length at least 1 and every sampling oracle. -/
theorem c10_all_flags_false_fails (len : Nat) (rand : Nat → Nat) (h : 1 ≤ len) :
    build_pool false false false false = [] ∧
    generate_password len false false false false rand = none := by
  refine ⟨rfl, ?_⟩
  simp only [generate_password]
  rw [if_pos]
  exact ⟨by decide, h⟩

/-- Witness for C10 at a concrete input. -/
theorem c10_witness :
    build_pool false false false false = [] ∧
    generate_password 8 false false false false (fun _ => 0) = none :=
  c10_all_flags_false_fails 8 (fun _ => 0) (by decide)

/-- C3 counterexample: the claim requires that any confirmation response
other than the exact lowercase string "y" leaves the previous length
unchanged, but the code strips and lowercases the response first: with no
length set, input "7" and confirmation "Y", `do_set_length` returns 7. -/
theorem c3_counterexample :
    ("Y" : String) ≠ "y" ∧ do_set_length none "7" "Y" = some 7 := by
  constructor
  · decide
  · decide

/-- C3 (amended): `do_set_length` keeps the previous length when the
trimmed input is empty, contains a non-digit character, parses outside
[5,100], or parses below 10 while the confirmation, stripped and
lowercased, differs from "y"; in all remaining cases it returns the parsed
integer. -/
theorem c3_do_set_length_amended (current : Option Nat) (raw confirm : String) :
    (py_strip raw = "" → do_set_length current raw confirm = current) ∧
    ((∃ c ∈ (py_strip raw).toList, c ∉ string_digits) →
      do_set_length current raw confirm = current) ∧
    (parse_digits (py_strip raw) < 5 ∨ 100 < parse_digits (py_strip raw) →
      do_set_length current raw confirm = current) ∧
    (parse_digits (py_strip raw) < 10 → py_lower (py_strip confirm) ≠ "y" →
      do_set_length current raw confirm = current) ∧
    (py_strip raw ≠ "" → (∀ c ∈ (py_strip raw).toList, c ∈ string_digits) →
      5 ≤ parse_digits (py_strip raw) → parse_digits (py_strip raw) ≤ 100 →
      (10 ≤ parse_digits (py_strip raw) ∨ py_lower (py_strip confirm) = "y") →
      do_set_length current raw confirm = some (parse_digits (py_strip raw))) := by
  refine ⟨?_, ?_, ?_, ?_, ?_⟩
  · intro h
    simp only [do_set_length]
    split_ifs <;> rfl
  · rintro ⟨c, hc, hcd⟩
    simp only [do_set_length]
    split_ifs with h1 h2 h3 h4 <;> try rfl
    exfalso
    have hd := List.all_eq_true.mp h2 c hc
    exact hcd (by simpa using hd)
  · intro h
    simp only [do_set_length]
    split_ifs with h1 h2 <;> rfl
  · intro h hy
    simp only [do_set_length]
    split_ifs with h1 h2 h3 h4 <;> try rfl
    exact absurd ⟨h, hy⟩ h4
  · intro hne hall hlo hhi hweak
    simp only [do_set_length]
    split_ifs with h1 h2 h3 h4
    · exact absurd h1 hne
    · exfalso
      omega
    · exfalso
      obtain ⟨hlt, hny⟩ := h4
      rcases hweak with hge | hy
      · omega
      · exact hny hy
    · rfl
    · refine absurd ?_ h2
      simp only [List.all_eq_true, decide_eq_true_eq]
      exact hall

/-- Witness for C3's amended theorem at concrete inputs: " 42 " is
accepted without confirmation, and 7 with a stripped-lowercased "y"
confirmation. -/
theorem c3_witness :
    do_set_length none " 42 " "" = some 42 ∧
    do_set_length (some 20) "7" " Y " = some 7 := by
  constructor
  · have h := (c3_do_set_length_amended none " 42 " "").2.2.2.2
      (by decide) (by decide) (by decide) (by decide) (Or.inl (by decide))
    exact h.trans (by decide)
  · have h := (c3_do_set_length_amended (some 20) "7" " Y ").2.2.2.2
      (by decide) (by decide) (by decide) (by decide) (Or.inr (by decide))
    exact h.trans (by decide)

/-- C9: on the character-types screen each toggle choice "1"-"4" flips
exactly the corresponding flag and leaves the other three unchanged, so
repeating the same toggle restores all four flags. -/
theorem c9_toggle_flips_one_and_is_involutive (l u d s : Bool) :
    toggle_types (l, u, d, s) "1" = (!l, u, d, s) ∧
    toggle_types (l, u, d, s) "2" = (l, !u, d, s) ∧
    toggle_types (l, u, d, s) "3" = (l, u, !d, s) ∧
    toggle_types (l, u, d, s) "4" = (l, u, d, !s) ∧
    toggle_types (toggle_types (l, u, d, s) "1") "1" = (l, u, d, s) ∧
    toggle_types (toggle_types (l, u, d, s) "2") "2" = (l, u, d, s) ∧
    toggle_types (toggle_types (l, u, d, s) "3") "3" = (l, u, d, s) ∧
    toggle_types (toggle_types (l, u, d, s) "4") "4" = (l, u, d, s) := by
  cases l <;> cases u <;> cases d <;> cases s <;> decide

/-- C1: the specification's generation invariant fails on the code.  The
guard before `run_generate_screen` (line 541) checks only that `length` is
set and `types_set` is true — never that a character class is enabled.
After logging in, setting length 10, toggling lowercase, uppercase and
numbers off (symbols default to off) and saving, the main menu accepts
choice "1" and invokes password generation with all four flags false,
where `random.choices` on the empty pool raises an uncaught `IndexError`. -/
theorem c1_generation_reached_with_all_flags_false :
    (run initState allOffTrace).mode = Mode.mainMenu ∧
    (run initState allOffTrace).config.length = some 10 ∧
    (run initState allOffTrace).config.types_set = true ∧
    (run initState allOffTrace).config.use_lower = false ∧
    (run initState allOffTrace).config.use_upper = false ∧
    (run initState allOffTrace).config.use_digit = false ∧
    (run initState allOffTrace).config.use_symbol = false ∧
    (step (run initState allOffTrace) (inp "1")).1.mode = Mode.crashed := by
  decide

/-- C4: the claim that every termination carries a successful status fails
on the code: extending `allOffTrace` with main-menu choice "1" drives the
program into the uncaught `IndexError` of `random.choices` on an empty
pool — an abnormal termination, distinct from the `SystemExit(0)` of
`exit_program`. -/
theorem c4_abnormal_termination_reachable :
    (run initState (allOffTrace ++ [inp "1"])).mode = Mode.crashed ∧
    Mode.crashed ≠ Mode.terminated 0 := by
  decide

/-- C5: every step of the session either leaves the history untouched or
appends exactly one record at the end, and an appended record carries the
password just generated together with the length and the four flags of
the configuration active at that step.  In particular no step ever
mutates or removes an existing record. -/
theorem c5_history_append_only (s : SessionState) (i : Inp) :
    (step s i).1.saved_passwords = s.saved_passwords ∨
    ∃ n pwd, s.config.length = some n ∧
      generate_password n s.config.use_lower s.config.use_upper
        s.config.use_digit s.config.use_symbol i.rand = some pwd ∧
      (step s i).1.saved_passwords = s.saved_passwords ++
        [⟨pwd, n, s.config.use_lower, s.config.use_upper,
          s.config.use_digit, s.config.use_symbol⟩] := by
  rcases s with ⟨mode, ⟨len, ts, l, u, d, y⟩, hist⟩
  cases mode <;> simp only [step, generate_and_record] <;>
    try first | exact Or.inl trivial | exact Or.inl rfl
  case loginUser =>
    split_ifs <;> first | exact Or.inl trivial | exact Or.inl rfl
  case loginPass =>
    split_ifs <;> first | exact Or.inl trivial | exact Or.inl rfl
  case mainMenu =>
    cases len with
    | none => split_ifs <;> first | exact Or.inl trivial | exact Or.inl rfl
    | some n =>
      split_ifs <;> try first | exact Or.inl trivial | exact Or.inl rfl
      rcases hgen : generate_password n l u d y i.rand with _ | pwd <;>
        simp only [hgen]
      · first | exact Or.inl trivial | exact Or.inl rfl
      · exact Or.inr ⟨n, pwd, rfl, hgen, rfl⟩
  case settingsMenu =>
    split_ifs <;> first | exact Or.inl trivial | exact Or.inl rfl
  case setLengthEntry =>
    split_ifs <;> first | exact Or.inl trivial | exact Or.inl rfl
  case setLengthConfirm =>
    split_ifs <;> first | exact Or.inl trivial | exact Or.inl rfl
  case typesMenu =>
    split_ifs <;> first | exact Or.inl trivial | exact Or.inl rfl
  case generateScreen =>
    cases len with
    | none => split_ifs <;> first | exact Or.inl trivial | exact Or.inl rfl
    | some n =>
      split_ifs <;> try first | exact Or.inl trivial | exact Or.inl rfl
      rcases hgen : generate_password n l u d y i.rand with _ | pwd <;>
        simp only [hgen]
      · first | exact Or.inl trivial | exact Or.inl rfl
      · exact Or.inr ⟨n, pwd, rfl, hgen, rfl⟩
  case helpMenu =>
    split_ifs <;> first | exact Or.inl trivial | exact Or.inl rfl

/-- C6: from the main menu with an empty history, export choice "4"
prints the nothing-to-export message, waits at the return prompt, and is
back at the main menu one input later; across both steps no event other
than that message is emitted — in particular `export_saved_passwords` is
never called. -/
theorem c6_empty_history_export_skips_collaborator (s : SessionState) (i j : Inp)
    (hm : s.mode = Mode.mainMenu) (hh : s.saved_passwords = [])
    (hi : py_strip i.line = "4") :
    (step s i).1.mode = Mode.pauseToMenu ∧
    (step s i).1.saved_passwords = [] ∧
    (step (step s i).1 j).1.mode = Mode.mainMenu ∧
    runEvents s [i, j] =
      [Event.printMsg "There are no saved passwords to export yet."] := by
  rcases s with ⟨mode, cfg, hist⟩
  simp only at hm hh
  subst hm hh
  simp [step, runEvents, hi]

/-- Witness for C6 at a concrete state and concrete inputs. -/
theorem c6_witness :
    (step ⟨Mode.mainMenu, initConfig, []⟩ (inp "4")).1.mode = Mode.pauseToMenu ∧
    (step ⟨Mode.mainMenu, initConfig, []⟩ (inp "4")).1.saved_passwords = [] ∧
    (step (step ⟨Mode.mainMenu, initConfig, []⟩ (inp "4")).1 (inp "")).1.mode =
      Mode.mainMenu ∧
    runEvents ⟨Mode.mainMenu, initConfig, []⟩ [inp "4", inp ""] =
      [Event.printMsg "There are no saved passwords to export yet."] :=
  c6_empty_history_export_skips_collaborator ⟨Mode.mainMenu, initConfig, []⟩
    (inp "4") (inp "") rfl rfl (by decide)

/-- Once terminated, the machine emits no further events. -/
lemma runEvents_terminated (cfg : Config) (hist : List PasswordRecord) (c : Nat) :
    ∀ l : List Inp, runEvents ⟨Mode.terminated c, cfg, hist⟩ l = [] := by
  intro l
  induction l with
  | nil => rfl
  | cons i rest ih => simpa [runEvents, step] using ih

/-- C7: a blank (whitespace-only) username at the login prompt terminates
the program with exit status 0, and neither that step nor any later input
produces any event — in particular `attempt_login` is never called. -/
theorem c7_blank_username_terminates_without_login_call (s : SessionState)
    (i : Inp) (rest : List Inp)
    (hm : s.mode = Mode.loginUser) (hi : py_strip i.line = "") :
    (step s i).1.mode = Mode.terminated 0 ∧
    runEvents s (i :: rest) = [] := by
  rcases s with ⟨mode, cfg, hist⟩
  simp only at hm
  subst hm
  refine ⟨by simp [step, hi], ?_⟩
  simp [runEvents, step, hi, runEvents_terminated]

/-- Witness for C7 at a concrete state and inputs. -/
theorem c7_witness :
    (step ⟨Mode.loginUser, initConfig, []⟩ (inp "  ")).1.mode = Mode.terminated 0 ∧
    runEvents ⟨Mode.loginUser, initConfig, []⟩ [inp "  ", inp "alice"] = [] :=
  c7_blank_username_terminates_without_login_call ⟨Mode.loginUser, initConfig, []⟩
    (inp "  ") [inp "alice"] rfl (by decide)

/-- The session invariant behind C8: the configured length is unset or in
[5,100], and a pending weak-length confirmation carries an n in [5,100]. -/
def state_inv (s : SessionState) : Prop :=
  (s.config.length = none ∨ ∃ n, s.config.length = some n ∧ 5 ≤ n ∧ n ≤ 100) ∧
  ∀ n, s.mode = Mode.setLengthConfirm n → 5 ≤ n ∧ n ≤ 100

lemma step_preserves_state_inv (s : SessionState) (i : Inp)
    (h : state_inv s) : state_inv (step s i).1 := by
  obtain ⟨hlen, hconf⟩ := h
  rcases s with ⟨mode, ⟨len, ts, l, u, d, y⟩, hist⟩
  simp only [state_inv] at hlen hconf ⊢
  cases mode <;> simp only [step, generate_and_record] <;>
    try exact ⟨by simpa using hlen, by intro n hn; cases hn⟩
  case loginUser =>
    split_ifs <;> exact ⟨by simpa using hlen, by intro n hn; cases hn⟩
  case loginPass =>
    split_ifs <;> exact ⟨by simpa using hlen, by intro n hn; cases hn⟩
  case mainMenu =>
    cases len with
    | none => split_ifs <;> exact ⟨by simpa using hlen, by intro n hn; cases hn⟩
    | some n =>
      split_ifs <;> try exact ⟨by simpa using hlen, by intro m hm; cases hm⟩
      rcases hgen : generate_password n l u d y i.rand with _ | pwd <;>
        simp only [hgen] <;>
        exact ⟨by simpa using hlen, by intro m hm; cases hm⟩
  case settingsMenu =>
    split_ifs <;> exact ⟨by simpa using hlen, by intro n hn; cases hn⟩
  case setLengthEntry =>
    split_ifs with h1 h2 h3 h4
    · exact ⟨by simpa using hlen, by intro n hn; cases hn⟩
    · exact ⟨by simpa using hlen, by intro n hn; cases hn⟩
    · refine ⟨hlen, ?_⟩
      intro m hm
      cases hm
      omega
    · exact ⟨Or.inr ⟨parse_digits (py_strip i.line), rfl, by omega, by omega⟩,
        by intro m hm; cases hm⟩
    · exact ⟨by simpa using hlen, by intro n hn; cases hn⟩
  case setLengthConfirm n =>
    have hb : 5 ≤ n ∧ n ≤ 100 := hconf n rfl
    split_ifs
    · exact ⟨Or.inr ⟨n, rfl, hb.1, hb.2⟩, by intro m hm; cases hm⟩
    · exact ⟨by simpa using hlen, by intro m hm; cases hm⟩
  case typesMenu =>
    split_ifs <;> exact ⟨by simpa using hlen, by intro n hn; cases hn⟩
  case generateScreen =>
    cases len with
    | none => split_ifs <;> exact ⟨by simpa using hlen, by intro n hn; cases hn⟩
    | some n =>
      split_ifs <;> try exact ⟨by simpa using hlen, by intro m hm; cases hm⟩
      rcases hgen : generate_password n l u d y i.rand with _ | pwd <;>
        simp only [hgen] <;>
        exact ⟨by simpa using hlen, by intro m hm; cases hm⟩
  case helpMenu =>
    split_ifs <;> exact ⟨by simpa using hlen, by intro n hn; cases hn⟩

lemma run_preserves_state_inv (l : List Inp) :
    ∀ s : SessionState, state_inv s → state_inv (run s l) := by
  induction l with
  | nil => exact fun s h => h
  | cons i rest ih => exact fun s h => ih (step s i).1 (step_preserves_state_inv s i h)

/-- C8: in every reachable session state (any interaction sequence run
from the initial state) the configured length is either still unset or an
integer in [5,100]. -/
theorem c8_length_invariant (l : List Inp) :
    (run initState l).config.length = none ∨
    ∃ n, (run initState l).config.length = some n ∧ 5 ≤ n ∧ n ≤ 100 :=
  (run_preserves_state_inv l initState ⟨Or.inl rfl, by intro n hn; cases hn⟩).1

end PasswordGenerator
